import Mathlib

/-!
Shallow embedding of the `MultipleVirtualList` composite scroll coordinator
(src/packages/react-components/src/components/MultipleVirtualList/index.tsx).

The coordinator owns one scroll container and a list of segment descriptors
(`renderConfig : MvlConfigItem[]`).  Its mutable state is:
  * `scrollTop` (React state, updated on every scroll event),
  * `_height` (React state, `0` until the post-mount measurement effect runs),
  * `currentFetchIndex` (a ref holding the active-segment pointer),
  * the internal state of the one throttle wrapper captured by `onScroll`.

Callbacks are modelled by their observable effects: a handler invocation
produces an updated `CoordinatorState` together with the list of segment
indices whose `fetchMore` hook was invoked.  `fetchMore` presence and
callability is modelled by a `Bool` on the descriptor (the source checks
truthiness and `typeof f` at every call site).  Optional numeric fields
(`itemSize`, `renderGap`) are `Option Nat`, with `none` for unspecified;
the source combines them with `||` so a configured `0` also falls back to
the default (JavaScript falsiness), which `jsOrNat` reproduces.
-/

namespace Mvl

/-- One segment descriptor (`MvlConfigItem` in the source).  Only the fields
relevant to the coordinator logic are modelled: `fetchMore` records whether
the descriptor carries a callable `fetchMore` hook. -/
structure MvlConfigItem where
  dataLength : Nat
  itemSize : Option Nat
  fetchMore : Bool
  renderGap : Option Nat
deriving DecidableEq

/-- The props of the coordinator (`MultipleVirtualListProps` plus the source
defaults `fetchOnScroll = true`, `srcollInterval = 200`, `fetchOnBottom =
false`, `boundary = 0`, supplied explicitly by callers of this model).
`srcollInterval` keeps the source spelling. -/
structure MvlProps where
  renderConfig : List MvlConfigItem
  fetchOnScroll : Bool
  srcollInterval : Int
  fetchOnBottom : Bool
  boundary : Nat
deriving DecidableEq

/-- The mutable state of one mounted coordinator instance.  `height` is the
`_height` React state (`0` until measured); `throttleLast` is the last
invocation time recorded by the throttle wrapper (`none` before any
invocation). -/
structure CoordinatorState where
  scrollTop : Int
  height : Int
  currentFetchIndex : Int
  throttleLast : Option Int
deriving DecidableEq

/-- Initial state: `useState(0)` twice, `useRef(0)`, fresh throttle. -/
def initState : CoordinatorState :=
  { scrollTop := 0, height := 0, currentFetchIndex := 0, throttleLast := none }

/-- Source lines 82-85:
`currentFetchIndex.current = val > renderConfig.length - 1 ? renderConfig.length - 1 : val`. -/
def setCurrentFetchIndex (cfg : List MvlConfigItem) (val : Int) : Int :=
  if val > (cfg.length : Int) - 1 then (cfg.length : Int) - 1 else val

/-- `renderConfig && renderConfig[i] && typeof renderConfig[i].fetchMore === 'function'`
for a natural index (source lines 110-114). -/
def fetchableN (cfg : List MvlConfigItem) (i : Nat) : Bool :=
  match cfg.get? i with
  | some item => item.fetchMore
  | none => false

/-- `renderConfig[i]?.fetchMore && typeof renderConfig[i]?.fetchMore === 'function'`
for a JavaScript number index, which may be negative (source lines 89-93):
an index outside the array yields `undefined`, hence `false`. -/
def fetchableI (cfg : List MvlConfigItem) (i : Int) : Bool :=
  if i < 0 then false else fetchableN cfg i.toNat

/-- Source lines 87-97 (`scrollFetch`): when `fetchOnScroll` is set and the
descriptor at `currentFetchIndex` has a callable `fetchMore`, invoke it.
The result is the list of segment indices whose hook was invoked. -/
def scrollFetch (P : MvlProps) (s : CoordinatorState) : List Nat :=
  if P.fetchOnScroll then
    if fetchableI P.renderConfig s.currentFetchIndex then [s.currentFetchIndex.toNat]
    else []
  else []

/-- Modelled from the spec: the `throttle` utility is imported from `./utils`
(source line 14), whose implementation is not part of the repository
snapshot; only its call sites are.  Spec section 4.4 fixes its contract: a
leading-edge time gate that invokes the wrapped callback when no invocation
has happened yet or the configured interval has elapsed since the last one,
and drops (never queues) calls inside the interval.  `throttleStep` returns
the new recorded last-invocation time and whether the wrapped callback fires. -/
def throttleStep (interval : Int) (last : Option Int) (t : Int) : Option Int × Bool :=
  match last with
  | none => (some t, true)
  | some t0 => if interval ≤ t - t0 then (some t, true) else (some t0, false)

/-- The two closure shapes `onBottom(index)` (source lines 107-120) can
return: the direct-fetch closure (lines 109-117) or the advance closure
`() => setCurrentFetchIndex(index + 1)` (line 119). -/
inductive Handler where
  | fetchSeg (i : Nat)
  | advance (i : Nat)
deriving DecidableEq

/-- `onBottom(index)` (source lines 107-120): returns the direct-fetch
closure when `fetchOnBottom`, else the advance closure. -/
def onBottomHandler (fetchOnBottom : Bool) (i : Nat) : Handler :=
  if fetchOnBottom then Handler.fetchSeg i else Handler.advance i

/-- Source line 162: `onLeave={fetchOnBottom ? undefined : onBottom(index)}`. -/
def onLeaveHandler (fetchOnBottom : Bool) (i : Nat) : Option Handler :=
  if fetchOnBottom then none else some (onBottomHandler fetchOnBottom i)

/-- Running one handler closure: the direct-fetch closure invokes
`renderConfig[i].fetchMore` when present and callable (and touches no
state); the advance closure runs `setCurrentFetchIndex (i + 1)`. -/
def runHandler (P : MvlProps) (s : CoordinatorState) :
    Handler → CoordinatorState × List Nat
  | Handler.fetchSeg i => (s, if fetchableN P.renderConfig i then [i] else [])
  | Handler.advance i =>
      ({ s with currentFetchIndex := setCurrentFetchIndex P.renderConfig ((i : Int) + 1) }, [])

/-- External events delivered to a mounted coordinator: a scroll event
carrying the raw offset and its delivery time, a segment's bottom-edge or
leave-edge signal, a raw `setCurrentFetchIndex` call, and the post-mount
measurement committing the container height. -/
inductive MvlEvent where
  | scroll (offset : Int) (time : Int)
  | bottom (i : Nat)
  | leave (i : Nat)
  | setActive (val : Int)
  | measure (h : Int)

/-- One event step.  `scroll` follows source lines 101-105: store the raw
offset, then call the throttled `scrollFetch`.  `bottom` runs the closure
`onBottom(i)` returned for segment `i`; `leave` runs the wired `onLeave`
closure when there is one (none when `fetchOnBottom`).  The second
component lists the segments whose `fetchMore` was invoked by the step. -/
def step (P : MvlProps) (s : CoordinatorState) : MvlEvent → CoordinatorState × List Nat
  | MvlEvent.scroll offset t =>
      let s1 : CoordinatorState := { s with scrollTop := offset }
      let r := throttleStep P.srcollInterval s1.throttleLast t
      if r.2 then ({ s1 with throttleLast := r.1 }, scrollFetch P s1)
      else ({ s1 with throttleLast := r.1 }, [])
  | MvlEvent.bottom i => runHandler P s (onBottomHandler P.fetchOnBottom i)
  | MvlEvent.leave i =>
      match onLeaveHandler P.fetchOnBottom i with
      | some h => runHandler P s h
      | none => (s, [])
  | MvlEvent.setActive val =>
      ({ s with currentFetchIndex := setCurrentFetchIndex P.renderConfig val }, [])
  | MvlEvent.measure h => ({ s with height := h }, [])

/-- Folding a sequence of events, concatenating the fetch invocations. -/
def runEvents (P : MvlProps) : CoordinatorState → List MvlEvent → CoordinatorState × List Nat
  | s, [] => (s, [])
  | s, e :: es =>
      let r := step P s e
      let r2 := runEvents P r.1 es
      (r2.1, r.2 ++ r2.2)

/-- A scroll event from an (offset, time) pair. -/
def mkScroll (p : Int × Int) : MvlEvent := MvlEvent.scroll p.1 p.2

/-- JavaScript `v || d` on an optional number: `undefined` and `0` are falsy. -/
def jsOrNat (v : Option Nat) (d : Nat) : Nat :=
  match v with
  | none => d
  | some x => if x = 0 then d else x

/-- The props handed to one segment's `MVirtualList` Window Engine
(source lines 156-169), with handlers as `Handler` values. -/
structure MVirtualListProps where
  outerHeight : Int
  scrollTop : Int
  dataLength : Nat
  onBottom : Handler
  onLeave : Option Handler
  itemSize : Nat
  renderGap : Nat
  boundary : Nat
deriving DecidableEq

/-- The `MVirtualList` element built for descriptor `item` at position `i`
(source lines 156-169): `itemSize={dataItem.itemSize || 100}`,
`renderGap={dataItem?.renderGap || 0}`. -/
def renderSeg (P : MvlProps) (s : CoordinatorState) (i : Nat) (item : MvlConfigItem) :
    MVirtualListProps :=
  { outerHeight := s.height
    scrollTop := s.scrollTop
    dataLength := item.dataLength
    onBottom := onBottomHandler P.fetchOnBottom i
    onLeave := onLeaveHandler P.fetchOnBottom i
    itemSize := jsOrNat item.itemSize 100
    renderGap := jsOrNat item.renderGap 0
    boundary := P.boundary }

/-- `renderConfig.map((dataItem, index) => ...)` starting at position `i`. -/
def renderFrom (P : MvlProps) (s : CoordinatorState) :
    Nat → List MvlConfigItem → List MVirtualListProps
  | _, [] => []
  | i, item :: rest => renderSeg P s i item :: renderFrom P s (i + 1) rest

/-- The render body (source lines 153-172): `_height ? renderConfig.map(...) : null`.
A number is truthy exactly when it is nonzero. -/
def render (P : MvlProps) (s : CoordinatorState) : List MVirtualListProps :=
  if s.height = 0 then [] else renderFrom P s 0 P.renderConfig

/-! ### Concrete instances used by witnesses and counterexamples -/

/-- A descriptor with every optional capability present. -/
def itemF : MvlConfigItem :=
  { dataLength := 10, itemSize := some 50, fetchMore := true, renderGap := some 0 }

/-- A descriptor with no callable `fetchMore` hook. -/
def itemNoF : MvlConfigItem :=
  { dataLength := 10, itemSize := some 50, fetchMore := false, renderGap := some 0 }

/-- Five segments, source defaults (`fetchOnScroll`, interval 200, no
bottom-fetch, boundary 0). -/
def P5 : MvlProps :=
  { renderConfig := [itemF, itemF, itemF, itemF, itemF]
    fetchOnScroll := true
    srcollInterval := 200
    fetchOnBottom := false
    boundary := 0 }

/-- Three segments, source defaults. -/
def P3 : MvlProps :=
  { renderConfig := [itemF, itemF, itemF]
    fetchOnScroll := true
    srcollInterval := 200
    fetchOnBottom := false
    boundary := 0 }

/-- Five segments with `fetchOnBottom` enabled. -/
def P5b : MvlProps :=
  { renderConfig := [itemF, itemF, itemF, itemF, itemF]
    fetchOnScroll := true
    srcollInterval := 200
    fetchOnBottom := true
    boundary := 0 }

/-- One segment whose descriptor has no fetch hook. -/
def P1n : MvlProps :=
  { renderConfig := [itemNoF]
    fetchOnScroll := true
    srcollInterval := 200
    fetchOnBottom := false
    boundary := 0 }

/-- A measured state: height 300, nothing else has happened. -/
def s300 : CoordinatorState :=
  { scrollTop := 0, height := 300, currentFetchIndex := 0, throttleLast := none }

/-! ### Helper lemmas -/

/-- The ternary on source line 84 is `min` with `renderConfig.length - 1`:
a clamp from above only. -/
theorem setCurrentFetchIndex_eq_min (cfg : List MvlConfigItem) (val : Int) :
    setCurrentFetchIndex cfg val = min val ((cfg.length : Int) - 1) := by
  simp only [setCurrentFetchIndex, min_def]
  split <;> split <;> omega

theorem setCurrentFetchIndex_le (cfg : List MvlConfigItem) (val : Int) :
    setCurrentFetchIndex cfg val ≤ (cfg.length : Int) - 1 := by
  rw [setCurrentFetchIndex_eq_min]
  exact min_le_right _ _

/-- A scroll step always stores the raw offset. -/
theorem step_scroll_scrollTop (P : MvlProps) (s : CoordinatorState) (o t : Int) :
    (step P s (MvlEvent.scroll o t)).1.scrollTop = o := by
  simp only [step]
  split <;> rfl

/-- The scroll-driven fetch path invokes at most one hook per firing. -/
theorem scrollFetch_length_le (P : MvlProps) (s : CoordinatorState) :
    (scrollFetch P s).length ≤ 1 := by
  simp only [scrollFetch]
  split
  · split <;> simp
  · simp

/-! ### The claims -/

/-- Claim C1, amended: after every update of the stored active-segment index
by an event (a boundary-crossing signal or a `setCurrentFetchIndex` call),
the new value is at most `segmentCount - 1`; events that do not update the
index leave it unchanged.  (The non-decreasing half of the original claim is
refuted by `c1_counterexample`.) -/
theorem c1_active_index_clamped_above (P : MvlProps) (s : CoordinatorState) (e : MvlEvent) :
    (step P s e).1.currentFetchIndex = s.currentFetchIndex ∨
      (step P s e).1.currentFetchIndex ≤ (P.renderConfig.length : Int) - 1 := by
  cases e with
  | scroll o t =>
      left
      simp only [step]
      split <;> rfl
  | bottom i =>
      by_cases hb : P.fetchOnBottom
      · left
        simp [step, onBottomHandler, runHandler, hb]
      · right
        simp [step, onBottomHandler, runHandler, hb, setCurrentFetchIndex_le]
  | leave i =>
      by_cases hb : P.fetchOnBottom
      · left
        simp [step, onLeaveHandler, hb]
      · right
        simp [step, onLeaveHandler, onBottomHandler, runHandler, hb, setCurrentFetchIndex_le]
  | setActive val =>
      right
      simp [step, setCurrentFetchIndex_le]
  | measure h =>
      left
      rfl

/-- Claim C1, counterexample to the non-decreasing half: with five segments
and `fetchOnBottom = false`, segment 2's leave signal moves the index to 3,
after which segment 0's leave signal moves it back down to 1 — a strict
decrease across a sequence of boundary-crossing events. -/
theorem c1_counterexample :
    (step P5 (step P5 initState (MvlEvent.leave 2)).1 (MvlEvent.leave 0)).1.currentFetchIndex <
      (step P5 initState (MvlEvent.leave 2)).1.currentFetchIndex := by decide

/-- Claim C2, amended: `setCurrentFetchIndex` clamps its argument from above
only — the committed value is `min val (segmentCount - 1)`, so a negative
request is stored unchanged (below 0); no request raises an error (the
operation is total), and a `setActive` event commits exactly this value. -/
theorem c2_clamp_above_only (cfg : List MvlConfigItem) (val : Int)
    (P : MvlProps) (s : CoordinatorState) :
    setCurrentFetchIndex cfg val = min val ((cfg.length : Int) - 1) ∧
      (step P s (MvlEvent.setActive val)).1.currentFetchIndex =
        setCurrentFetchIndex P.renderConfig val :=
  ⟨setCurrentFetchIndex_eq_min cfg val, rfl⟩

/-- Claim C2, counterexample: with three segments, requesting index `-1`
commits `-1` as the new active-segment index, which lies outside
`[0, segmentCount - 1]` — the requested index is not clamped from below. -/
theorem c2_counterexample :
    (step P3 initState (MvlEvent.setActive (-1))).1.currentFetchIndex = -1 ∧
      ¬(0 ≤ (step P3 initState (MvlEvent.setActive (-1))).1.currentFetchIndex) := by decide

/-- Claim C3: for every nonempty sequence of scroll events, the stored
`scrollTop` after the sequence equals the last raw offset delivered,
whatever the length of the sequence and the delivery times. -/
theorem c3_scrollTop_eq_last (P : MvlProps) (s : CoordinatorState)
    (l : List (Int × Int)) (h : l ≠ []) :
    (runEvents P s (l.map mkScroll)).1.scrollTop = (l.getLast h).1 := by
  induction l generalizing s with
  | nil => exact absurd rfl h
  | cons p rest ih =>
      cases rest with
      | nil =>
          simp only [List.map, runEvents, List.getLast]
          exact step_scroll_scrollTop P s p.1 p.2
      | cons q r =>
          have hne : q :: r ≠ ([] : List (Int × Int)) := by simp
          simp only [List.map, runEvents]
          rw [List.getLast_cons hne]
          exact ih (step P s (mkScroll p)).1 hne

/-- Claim C3, witness at the sequence [(5, 0), (7, 10)]. -/
theorem c3_witness :
    ([((5 : Int), (0 : Int)), ((7 : Int), (10 : Int))] : List (Int × Int)) ≠ [] ∧
      (runEvents P3 initState
        ([((5 : Int), (0 : Int)), ((7 : Int), (10 : Int))].map mkScroll)).1.scrollTop = 7 :=
  ⟨by decide, by
    rw [c3_scrollTop_eq_last P3 initState _ (by decide)]
    rfl⟩

/-- Claim C4: with `fetchOnBottom = true`, a bottom-edge signal of segment
`i` whose descriptor carries a callable `fetchMore` invokes exactly that
segment's hook, exactly once, and leaves the coordinator state — in
particular the throttle state — untouched (the dispatch bypasses the scroll
throttle wrapper entirely). -/
theorem c4_bottom_direct_fetch (P : MvlProps) (s : CoordinatorState) (i : Nat)
    (hb : P.fetchOnBottom = true) (hf : fetchableN P.renderConfig i = true) :
    step P s (MvlEvent.bottom i) = (s, [i]) := by
  simp [step, onBottomHandler, runHandler, hb, hf]

/-- Claim C4, witness: segment 1 of a five-segment configuration with
`fetchOnBottom` enabled. -/
theorem c4_witness :
    P5b.fetchOnBottom = true ∧ fetchableN P5b.renderConfig 1 = true ∧
      step P5b initState (MvlEvent.bottom 1) = (initState, [1]) :=
  ⟨rfl, by decide, c4_bottom_direct_fetch P5b initState 1 rfl (by decide)⟩

/-- Claim C5, amended: with `fetchOnBottom = false`, a bottom-edge or
leave-edge signal of segment `i` sets the active-segment index to
`min (i + 1) (segmentCount - 1)` — the firing segment's successor, clamped
at the last index — and invokes no `fetchMore` hook; when the firing segment
is the current active one and its successor is within range, this advances
the index by exactly 1.  (The original "advances by exactly 1 on every
firing" is refuted by `c5_counterexample`: the committed value depends on
the firing segment, not on the previous index.) -/
theorem c5_edge_sets_successor (P : MvlProps) (s : CoordinatorState) (i : Nat)
    (hb : P.fetchOnBottom = false) :
    step P s (MvlEvent.bottom i) =
      ({ s with currentFetchIndex := min ((i : Int) + 1) ((P.renderConfig.length : Int) - 1) }, []) ∧
      step P s (MvlEvent.leave i) = step P s (MvlEvent.bottom i) ∧
      (s.currentFetchIndex = (i : Int) →
        (i : Int) + 1 ≤ (P.renderConfig.length : Int) - 1 →
        (step P s (MvlEvent.bottom i)).1.currentFetchIndex = s.currentFetchIndex + 1) := by
  refine ⟨?_, ?_, ?_⟩
  · simp [step, onBottomHandler, runHandler, hb, setCurrentFetchIndex_eq_min]
  · simp [step, onLeaveHandler, hb]
  · intro hcur hin
    simp [step, onBottomHandler, runHandler, hb, setCurrentFetchIndex_eq_min,
      min_eq_left hin, hcur]

/-- Claim C5, witness: segment 0's bottom signal with the active index at 0
advances it to 1, with no fetch invocation. -/
theorem c5_witness :
    P5.fetchOnBottom = false ∧
      step P5 initState (MvlEvent.bottom 0) =
        ({ initState with currentFetchIndex := min ((0 : Int) + 1) ((P5.renderConfig.length : Int) - 1) }, []) ∧
      initState.currentFetchIndex = (0 : Int) ∧
      (0 : Int) + 1 ≤ (P5.renderConfig.length : Int) - 1 ∧
      (step P5 initState (MvlEvent.bottom 0)).1.currentFetchIndex = initState.currentFetchIndex + 1 :=
  ⟨rfl, (c5_edge_sets_successor P5 initState 0 rfl).1, rfl, by decide,
    (c5_edge_sets_successor P5 initState 0 rfl).2.2 rfl (by decide)⟩

/-- Claim C5, counterexample: with five segments, `fetchOnBottom = false`
and the active index at 0, segment 2's bottom signal commits index 3 —
not the previous index plus 1. -/
theorem c5_counterexample :
    (step P5 initState (MvlEvent.bottom 2)).1.currentFetchIndex = 3 ∧
      initState.currentFetchIndex + 1 ≠ 3 := by decide

/-- Position lookup in the mapped segment list. -/
theorem renderFrom_get (P : MvlProps) (s : CoordinatorState) :
    ∀ (l : List MvlConfigItem) (k j : Nat),
      (renderFrom P s k l).get? j = (l.get? j).map (fun it => renderSeg P s (k + j) it) := by
  intro l
  induction l with
  | nil => intro k j; simp [renderFrom]
  | cons item rest ih =>
      intro k j
      cases j with
      | zero => simp [renderFrom]
      | succ j =>
          have hk : k + 1 + j = k + (j + 1) := by omega
          simp only [renderFrom, List.get?, ih (k + 1) j, hk]

theorem renderFrom_length (P : MvlProps) (s : CoordinatorState) :
    ∀ (l : List MvlConfigItem) (k : Nat), (renderFrom P s k l).length = l.length := by
  intro l
  induction l with
  | nil => intro k; rfl
  | cons item rest ih => intro k; simp [renderFrom, ih]

theorem renderFrom_mem (P : MvlProps) (s : CoordinatorState) :
    ∀ (l : List MvlConfigItem) (k : Nat) (pr : MVirtualListProps),
      pr ∈ renderFrom P s k l → pr.scrollTop = s.scrollTop ∧ pr.outerHeight = s.height := by
  intro l
  induction l with
  | nil => intro k pr hpr; simp [renderFrom] at hpr
  | cons item rest ih =>
      intro k pr hpr
      simp only [renderFrom, List.mem_cons] at hpr
      rcases hpr with hpr | hpr
      · subst hpr; exact ⟨rfl, rfl⟩
      · exact ih (k + 1) pr hpr

/-- Claim C6: for every segment position `i` of the configuration, the
element built for it wires `onLeave` exactly when `fetchOnBottom` is
disabled, and then with the very same handler as `onBottom` — the advance
closure; when `fetchOnBottom` is enabled, `onLeave` is left unwired. -/
theorem c6_onLeave_wiring (P : MvlProps) (s : CoordinatorState) (i : Nat)
    (item : MvlConfigItem) (hi : P.renderConfig.get? i = some item)
    (hh : s.height ≠ 0) :
    (render P s).get? i = some (renderSeg P s i item) ∧
      (P.fetchOnBottom = false →
        (renderSeg P s i item).onLeave = some ((renderSeg P s i item).onBottom) ∧
        (renderSeg P s i item).onBottom = Handler.advance i) ∧
      (P.fetchOnBottom = true → (renderSeg P s i item).onLeave = none) := by
  refine ⟨?_, ?_, ?_⟩
  · rw [render, if_neg hh, renderFrom_get, hi]
    simp
  · intro hb
    constructor
    · simp [renderSeg, onLeaveHandler, hb]
    · simp [renderSeg, onBottomHandler, hb]
  · intro hb
    simp [renderSeg, onLeaveHandler, hb]

/-- Claim C6, witness: segment 1 of the five-segment configuration with
`fetchOnBottom = false`, rendered at height 300. -/
theorem c6_witness :
    P5.renderConfig.get? 1 = some itemF ∧ s300.height ≠ 0 ∧ P5.fetchOnBottom = false ∧
      (render P5 s300).get? 1 = some (renderSeg P5 s300 1 itemF) ∧
      (renderSeg P5 s300 1 itemF).onLeave = some ((renderSeg P5 s300 1 itemF).onBottom) ∧
      (renderSeg P5 s300 1 itemF).onBottom = Handler.advance 1 :=
  ⟨by decide, by decide, rfl,
    (c6_onLeave_wiring P5 s300 1 itemF (by decide) (by decide)).1,
    ((c6_onLeave_wiring P5 s300 1 itemF (by decide) (by decide)).2.1 rfl).1,
    ((c6_onLeave_wiring P5 s300 1 itemF (by decide) (by decide)).2.1 rfl).2⟩

/-- Claim C7: when the descriptor at the active-segment index has no
callable `fetchMore` hook — missing, non-callable, or the index pointing at
no segment at all (out of range or negative) — the scroll-driven dispatch
invokes nothing: `scrollFetch` yields no invocation and a whole scroll step
emits no fetch.  The operations are total, so no error can be raised. -/
theorem c7_scroll_fetch_noop (P : MvlProps) (s : CoordinatorState) (o t : Int)
    (hf : fetchableI P.renderConfig s.currentFetchIndex = false) :
    scrollFetch P s = [] ∧ (step P s (MvlEvent.scroll o t)).2 = [] := by
  have hsf : scrollFetch P s = [] := by
    simp [scrollFetch, hf]
  refine ⟨hsf, ?_⟩
  have hsf1 : scrollFetch P { s with scrollTop := o } = [] := by
    simp [scrollFetch, hf]
  simp only [step]
  split
  · exact hsf1
  · rfl

/-- Claim C7, witness: a single segment lacking a fetch hook, active index
0, one scroll event. -/
theorem c7_witness :
    fetchableI P1n.renderConfig initState.currentFetchIndex = false ∧
      scrollFetch P1n initState = [] ∧
      (step P1n initState (MvlEvent.scroll 5 0)).2 = [] :=
  ⟨by decide, (c7_scroll_fetch_noop P1n initState 5 0 (by decide)).1,
    (c7_scroll_fetch_noop P1n initState 5 0 (by decide)).2⟩

/-- Claim C8: while the measured height is 0 the render body materializes no
segment at all; once the measurement event commits a height `H > 0`, every
configured segment is rendered (one element per descriptor) and each
receives the current `scrollTop` and the measured height. -/
theorem c8_render_gate (P : MvlProps) (s : CoordinatorState) (H : Int) :
    (s.height = 0 → render P s = []) ∧
      (0 < H →
        (render P (step P s (MvlEvent.measure H)).1).length = P.renderConfig.length ∧
        ∀ pr ∈ render P (step P s (MvlEvent.measure H)).1,
          pr.scrollTop = s.scrollTop ∧ pr.outerHeight = H) := by
  constructor
  · intro h0
    rw [render, if_pos h0]
  · intro hH
    have hs : (step P s (MvlEvent.measure H)).1 = { s with height := H } := rfl
    have hne : ({ s with height := H } : CoordinatorState).height ≠ 0 := by
      simp only []
      omega
    rw [hs, render, if_neg hne]
    constructor
    · exact renderFrom_length P { s with height := H } P.renderConfig 0
    · intro pr hpr
      exact renderFrom_mem P { s with height := H } P.renderConfig 0 pr hpr

/-- Claim C8, witness: before measurement nothing is rendered; after
measuring 300, all five segments are rendered. -/
theorem c8_witness :
    initState.height = 0 ∧ (0 : Int) < 300 ∧ render P5 initState = [] ∧
      (render P5 (step P5 initState (MvlEvent.measure 300)).1).length =
        P5.renderConfig.length :=
  ⟨rfl, by decide, (c8_render_gate P5 initState 300).1 rfl,
    ((c8_render_gate P5 initState 300).2 (by decide)).1⟩

/-- While every delivery time stays strictly inside the interval after the
recorded last invocation, the throttle stays closed: no fetch escapes and
the recorded time does not move. -/
theorem runEvents_scroll_quiet (P : MvlProps) (t0 : Int) :
    ∀ (l : List (Int × Int)) (s : CoordinatorState),
      s.throttleLast = some t0 →
      (∀ p ∈ l, p.2 - t0 < P.srcollInterval) →
      (runEvents P s (l.map mkScroll)).2 = [] ∧
        (runEvents P s (l.map mkScroll)).1.throttleLast = some t0 := by
  intro l
  induction l with
  | nil => intro s hl _; exact ⟨rfl, hl⟩
  | cons p rest ih =>
      intro s hl hq
      have hp : p.2 - t0 < P.srcollInterval := hq p (List.mem_cons_self p rest)
      have hcond : ¬ P.srcollInterval ≤ p.2 - t0 := by omega
      have hstep : step P s (mkScroll p) =
          ({ s with scrollTop := p.1, throttleLast := some t0 }, []) := by
        simp [mkScroll, step, hl, throttleStep, hcond]
      simp only [List.map, runEvents, hstep]
      have hrest := ih { s with scrollTop := p.1, throttleLast := some t0 } rfl
        (fun q hql => hq q (List.mem_cons_of_mem p hql))
      exact ⟨by simp [hrest.1], hrest.2⟩

/-- Claim C9: with `fetchOnScroll = true`, the interval at its source
default 200 and a fresh throttle, any 50 scroll events whose delivery times
all lie inside a 50-time-unit window produce at most one invocation of the
active segment's `fetchMore` through the throttled scroll-fetch path. -/
theorem c9_throttle_burst (P : MvlProps) (s : CoordinatorState) (a : Int)
    (l : List (Int × Int))
    (_hfs : P.fetchOnScroll = true)
    (hint : P.srcollInterval = 200)
    (h0 : s.throttleLast = none)
    (hn : l.length = 50)
    (hw : ∀ p ∈ l, a ≤ p.2 ∧ p.2 ≤ a + 50) :
    (runEvents P s (l.map mkScroll)).2.length ≤ 1 := by
  cases l with
  | nil => simp [runEvents]
  | cons p rest =>
      have hp := hw p (List.mem_cons_self p rest)
      have hstep : step P s (mkScroll p) =
          ({ s with scrollTop := p.1, throttleLast := some p.2 },
            scrollFetch P { s with scrollTop := p.1 }) := by
        simp [mkScroll, step, h0, throttleStep]
      have hq : ∀ q ∈ rest, q.2 - p.2 < P.srcollInterval := by
        intro q hql
        have hqw := hw q (List.mem_cons_of_mem p hql)
        omega
      have hrest := runEvents_scroll_quiet P p.2 rest
        { s with scrollTop := p.1, throttleLast := some p.2 } rfl hq
      simp only [List.map, runEvents, hstep, hrest.1, List.append_nil]
      exact scrollFetch_length_le P { s with scrollTop := p.1 }

/-- Claim C9, witness: 50 scroll events at times 0, 1, ..., 49 inside the
window [0, 50] with the five-segment configuration. -/
theorem c9_witness :
    P5.fetchOnScroll = true ∧ P5.srcollInterval = 200 ∧
      initState.throttleLast = none ∧
      ((List.range 50).map (fun k => ((k : Int), (k : Int)))).length = 50 ∧
      (∀ p ∈ (List.range 50).map (fun k => ((k : Int), (k : Int))),
        (0 : Int) ≤ p.2 ∧ p.2 ≤ 0 + 50) ∧
      (runEvents P5 initState
        (((List.range 50).map (fun k => ((k : Int), (k : Int)))).map mkScroll)).2.length ≤ 1 :=
  ⟨rfl, rfl, rfl, by decide, by decide,
    c9_throttle_burst P5 initState 0 _ rfl rfl rfl (by decide) (by decide)⟩

/-- Claim C10: the coordinator passes `itemSize = 100` to a segment's Window
Engine when the descriptor's `itemSize` is unspecified or falsy (`0`), and
`renderGap = 0` when the descriptor's `renderGap` is unspecified or falsy;
a configured nonzero value is passed through unchanged. -/
theorem c10_default_sizes (P : MvlProps) (s : CoordinatorState) (i : Nat)
    (item : MvlConfigItem) :
    ((item.itemSize = none ∨ item.itemSize = some 0) →
      (renderSeg P s i item).itemSize = 100) ∧
      (∀ v, item.itemSize = some v → v ≠ 0 → (renderSeg P s i item).itemSize = v) ∧
      ((item.renderGap = none ∨ item.renderGap = some 0) →
        (renderSeg P s i item).renderGap = 0) ∧
      (∀ v, item.renderGap = some v → v ≠ 0 → (renderSeg P s i item).renderGap = v) := by
  refine ⟨?_, ?_, ?_, ?_⟩
  · rintro (h | h) <;> simp [renderSeg, jsOrNat, h]
  · intro v hv hv0
    simp [renderSeg, jsOrNat, hv, hv0]
  · rintro (h | h) <;> simp [renderSeg, jsOrNat, h]
  · intro v hv hv0
    simp [renderSeg, jsOrNat, hv, hv0]

/-- A descriptor with `itemSize` unspecified and `renderGap` configured 0. -/
def itemA : MvlConfigItem :=
  { dataLength := 1, itemSize := none, fetchMore := false, renderGap := some 0 }

/-- A descriptor with nonzero `itemSize` and `renderGap`. -/
def itemB : MvlConfigItem :=
  { dataLength := 1, itemSize := some 37, fetchMore := false, renderGap := some 4 }

/-- Claim C10, witness: one descriptor exercising both defaults and one
exercising both pass-throughs. -/
theorem c10_witness :
    (renderSeg P5 initState 0 itemA).itemSize = 100 ∧
      (renderSeg P5 initState 0 itemA).renderGap = 0 ∧
      (renderSeg P5 initState 0 itemB).itemSize = 37 ∧
      (renderSeg P5 initState 0 itemB).renderGap = 4 :=
  ⟨(c10_default_sizes P5 initState 0 itemA).1 (Or.inl rfl),
    (c10_default_sizes P5 initState 0 itemA).2.2.1 (Or.inr rfl),
    (c10_default_sizes P5 initState 0 itemB).2.1 37 rfl (by decide),
    (c10_default_sizes P5 initState 0 itemB).2.2.2 4 rfl (by decide)⟩

end Mvl
